import Mathlib

/-!
Verification of the `did` command-line front end (`did/cli.py`).

The file embeds the option-parsing / time-period-resolution engine
(`Options.time_period`, `Options.parse`) and the report-orchestration loop
(`main`) of `did/cli.py` as Lean definitions, and proves the specified
properties about them.

Dates are modelled as integers counting days (the `Date` collaborator of
`did.base` owns the calendar math; its period-boundary constructors are
supplied through an abstract environment, and concrete calendar dates are
mapped to day counts by the standard civil-calendar formula).
-/

namespace Did

/-- Modelled from the spec: the `Date` collaborator of `did.base` (not under
`src/`) exposes a "today" value and period-boundary constructors
`this/last_week/month/quarter/year`, each returning a `(since, until)` pair of
dates.  A date is a day count (an integer); the environment supplies the
boundary pairs abstractly. -/
structure DateEnv where
  today : Int
  this_year : Int × Int
  last_year : Int × Int
  this_quarter : Int × Int
  last_quarter : Int × Int
  this_month : Int × Int
  last_month : Int × Int
  this_week : Int × Int
  last_week : Int × Int

/-- Modelled from the spec: day count of a civil calendar date (days since
1970-01-01), the calendar arithmetic owned by the `Date` collaborator.
Standard era/year-of-era formula; all intermediate divisions act on
nonnegative values for years after 400 AD. -/
def days_from_civil (y m d : Int) : Int :=
  let y2 : Int := if m ≤ 2 then y - 1 else y
  let era : Int := (if 0 ≤ y2 then y2 else y2 - 399) / 400
  let yoe : Int := y2 - era * 400
  let mp : Int := if 2 < m then m - 3 else m + 9
  let doy : Int := (153 * mp + 2) / 5 + d - 1
  let doe : Int := yoe * 365 + yoe / 4 - yoe / 100 + doy
  era * 146097 + doe - 719468

/-- A valid date string accepted by the `Date` constructor: either the literal
`"today"` or a `YYYY-MM-DD` date. -/
inductive DateStr where
  | today : DateStr
  | ymd (y m d : Int) : DateStr
deriving DecidableEq, Repr

/-- Modelled from the spec: `did.base.Date(string)` — `"today"` resolves to the
current date supplied by the environment, a `YYYY-MM-DD` string to the day
count of that civil date. -/
def dateOf (env : DateEnv) : DateStr → Int
  | DateStr.today => env.today
  | DateStr.ymd y m d => days_from_civil y m d

/-- Embedding of `Options.time_period` (`cli.py` lines 128-165): detect the
desired time period from the positional arguments.  Returns
`(since, until, period_label)`. -/
def time_period (env : DateEnv) (arg : List String) : Int × Int × String :=
  if "today" ∈ arg then
    (env.today, env.today + 1, "today")
  else if "year" ∈ arg then
    if "last" ∈ arg then
      (env.last_year.1, env.last_year.2, "the last fiscal year")
    else
      (env.this_year.1, env.this_year.2, "this fiscal year")
  else if "quarter" ∈ arg then
    if "last" ∈ arg then
      (env.last_quarter.1, env.last_quarter.2, "the last quarter")
    else
      (env.this_quarter.1, env.this_quarter.2, "this quarter")
  else if "month" ∈ arg then
    if "last" ∈ arg then
      (env.last_month.1, env.last_month.2, "the last month")
    else
      (env.this_month.1, env.this_month.2, "this month")
  else
    if "last" ∈ arg then
      (env.last_week.1, env.last_week.2, "the last week")
    else
      (env.this_week.1, env.this_week.2, "this week")

/-! ## Email resolution -/

/-- Whitespace characters matched by the `\s` class of the separator regex. -/
def isWs (c : Char) : Bool := c = ' ' || c = '\t' || c = '\n' || c = '\r'

/-- Drop leading and trailing whitespace from a character list. -/
def trimChars (l : List Char) : List Char :=
  ((l.dropWhile isWs).reverse.dropWhile isWs).reverse

/-- Split a character list at every comma. -/
def splitCommaAux : List Char → List Char → List (List Char)
  | [], acc => [acc.reverse]
  | c :: rest, acc =>
      if c = ',' then acc.reverse :: splitCommaAux rest []
      else splitCommaAux rest (c :: acc)

/-- Modelled from the spec: `did.utils.split` (not under `src/`) splits every
entry of the email list on the comma-and-whitespace separator `\s*,\s*`,
preserving encounter order and keeping duplicates. -/
def splitEmails (xs : List String) : List String :=
  xs.flatMap (fun s => (splitCommaAux s.data []).map (fun l => String.mk (trimChars l)))

/-- Embedding of `cli.py` lines 101-104: fall back to the configuration email
list when no `--email` option was given, then split on commas. -/
def resolve_emails (emails configEmails : List String) : List String :=
  splitEmails (if emails.isEmpty then configEmails else emails)

/-! ## Plugin enable flags -/

/-- The runtime values of one stat group's enable flags: the group's own
enable flag and the enable flag of every stat inside the group.  Modelled from
the spec for the schema shape (`did.stats.UserStats` is not under `src/`):
each plugin group and each stat within it contributes exactly one boolean
enable option. -/
structure StatGroupVals where
  flag : Bool
  stats : List Bool
deriving DecidableEq, Repr

/-- Embedding of `cli.py` lines 95-99: `opt.all` is enabled exactly when the
comprehension `[stat or group for group in groups for stat in group.stats]`
contains no true entry. -/
def compute_all (groups : List StatGroupVals) : Bool :=
  !(groups.any (fun g => g.stats.any (fun s => s || g.flag)))

/-! ## Exceptions and the option parser -/

/-- The exception families distinguished by `cli.py`:
`ConfigError`, `ReportError` (from `did.base`), `kerberos.GSSError`,
`ConfigParser.NoSectionError`, the `RuntimeError` raised by the date-range
validation (carrying the two reported dates, the second already made
inclusive), and any other exception. -/
inductive Exc where
  | configError (msg : String)
  | reportError (msg : String)
  | gssError
  | noSectionError (msg : String)
  | runtimeError (since inclusiveUntil : Int)
  | otherError
deriving DecidableEq, Repr

/-- Modelled from the spec: the ambient logging verbosity is a level number;
`utils.LOG_DEBUG` is the distinguished debugging level (its numeric value is
irrelevant to the claims). -/
def LOG_DEBUG : Nat := 7

/-- The shared state touched by `Options.parse`: the ambient logging level
(`utils.Logging.set`, line 93) and the argument list stored on the parser
object (`self.arguments`, lines 84-88). -/
structure SharedState where
  logLevel : Nat
  arguments : Option (List String)
deriving DecidableEq, Repr

/-- The option values produced by `optparse` for the built-in schema slots
that `Options.parse` inspects (the `optparse` library itself is a
collaborator): the repeated `--email` values, the raw `--since`/`--until`
values, `--debug`, `--merge`, `--total`, and the plugin enable-flag values. -/
structure OptIn where
  emails : List String
  since : Option DateStr
  untl : Option DateStr
  debug : Bool
  merge : Bool
  total : Bool
  groups : List StatGroupVals
deriving DecidableEq, Repr

/-- The resolved options returned by a successful `Options.parse`. -/
structure ResolvedOpt where
  emails : List String
  since : Int
  untl : Int
  period : String
  all : Bool
  merge : Bool
  total : Bool
deriving DecidableEq, Repr

/-- Embedding of `cli.py` lines 106-114: resolve the effective date range.
When neither `--since` nor `--until` was given, delegate to `time_period` on
the positional arguments; otherwise default `since` to `1993-01-01`, default
`until` to today, and advance `until` by one day to make the limit an
exclusive bound. -/
def resolve_range (env : DateEnv) (since untl : Option DateStr) (arg : List String) :
    Int × Int × String :=
  if since.isNone && untl.isNone then
    time_period env arg
  else
    (dateOf env (since.getD (DateStr.ymd 1993 1 1)),
     dateOf env (untl.getD DateStr.today) + 1,
     "given date range")

/-- Embedding of `Options.parse` (`cli.py` lines 82-126), with the shared
state passed explicitly: store the argument list on the parser, raise the
logging level when `--debug` was given, derive `all`, resolve emails, resolve
the date range, and validate `since.date < until.date`, raising a
`RuntimeError` that reports the inclusive end date `until - 1 day`. -/
def parse (env : DateEnv) (configEmails : List String) (o : OptIn) (arg : List String)
    (args : List String) (st : SharedState) : SharedState × Except Exc ResolvedOpt :=
  let st1 : SharedState := { st with arguments := some args }
  let st2 : SharedState := if o.debug then { st1 with logLevel := LOG_DEBUG } else st1
  let all := compute_all o.groups
  let emails := resolve_emails o.emails configEmails
  let r := resolve_range env o.since o.untl arg
  if r.1 < r.2.1 then
    (st2, Except.ok ⟨emails, r.1, r.2.1, r.2.2, all, o.merge, o.total⟩)
  else
    (st2, Except.error (Exc.runtimeError r.1 (r.2.1 - 1)))

/-! ## The orchestration loop -/

/-- Observable events of one invocation: `utils.header`, `utils.item` (with
its indentation level), a user session's data collection (`UserStats.check`),
the team report rendering (`team_stats.show`), and log/info messages. -/
inductive Ev where
  | header (s : String)
  | item (s : String) (level : Nat)
  | check (u : String)
  | show_team
  | log_error (s : String)
  | info (s : String)
deriving DecidableEq, Repr

/-- Embedding of the exception handlers of `main` (`cli.py` lines 219-236):
the events they log and the exit code they produce; `none` means the
exception is not caught and propagates. -/
def handleExc (osUser : String) : Exc → Option (List Ev × Nat)
  | Exc.configError msg => some ([Ev.log_error msg], 1)
  | Exc.reportError msg => some ([Ev.log_error msg], 1)
  | Exc.gssError =>
      some ([Ev.log_error "Kerberos authentication failed. Try kinit."], 2)
  | Exc.noSectionError msg =>
      some ([Ev.log_error msg,
             Ev.log_error "No email provided on the command line or in the config file",
             Ev.info "Create at least a minimum config file:",
             Ev.info ("[general]\nemail = \"My Name\" <" ++ osUser ++ "@domain.com>")], 3)
  | _ => none

/-- Embedding of the per-user loop of `main` (`cli.py` lines 200-208): for
each user emit an indented item (merge mode) or a header, then run the user
session's data collection.  `failCheck` tells which users' data collection
raises a `kerberos.GSSError` (modelled from the spec: credential failures come
from collaborators during collection). -/
def userLoop (merge : Bool) (failCheck : String → Bool) : List String → List Ev × Except Exc Unit
  | [] => ([], Except.ok ())
  | u :: rest =>
      let pre : List Ev := if merge then [Ev.item u 1] else [Ev.header u]
      if failCheck u then (pre, Except.error Exc.gssError)
      else
        let r := userLoop merge failCheck rest
        (pre ++ Ev.check u :: r.1, r.2)

/-- Embedding of the body of `main` (`cli.py` lines 183-217) after options are
resolved: build the user list and fail when it is empty, emit the merge-mode
banner, process every user, and finally render the team report when merge or
total mode is requested (with a "Total Report" header under total mode). -/
def mainBody (o : ResolvedOpt) (failCheck : String → Bool) : List Ev × Except Exc Unit :=
  if o.emails.isEmpty then
    ([], Except.error (Exc.configError "No user email provided"))
  else
    let pre : List Ev :=
      if o.merge then
        [Ev.header "Total Report", Ev.item ("Users: " ++ toString o.emails.length) 0]
      else []
    let r := userLoop o.merge failCheck o.emails
    match r.2 with
    | Except.error e => (pre ++ r.1, Except.error e)
    | Except.ok _ =>
        let post : List Ev :=
          if o.merge || o.total then
            (if o.total then [Ev.header "Total Report"] else []) ++ [Ev.show_team]
          else []
        (pre ++ r.1 ++ post, Except.ok ())

/-- The observable result of one invocation of `main`: normal return, a call
to `sys.exit`, or an uncaught exception propagating out. -/
inductive Outcome where
  | ok
  | exit (code : Nat)
  | uncaught (e : Exc)
deriving DecidableEq, Repr

/-- Embedding of `main` around `mainBody`: run the body and dispatch any
exception through the handlers of lines 219-236. -/
def mainRun (osUser : String) (o : ResolvedOpt) (failCheck : String → Bool) :
    List Ev × Outcome :=
  let r := mainBody o failCheck
  match r.2 with
  | Except.ok _ => (r.1, Outcome.ok)
  | Except.error e =>
      match handleExc osUser e with
      | some le => (r.1 ++ le.1, Outcome.exit le.2)
      | none => (r.1, Outcome.uncaught e)

/-- Number of "Total Report" headers in an event trace. -/
def countTR (evs : List Ev) : Nat := evs.count (Ev.header "Total Report")

/-- A concrete date environment used by closed witness statements. -/
def envEx : DateEnv where
  today := 100
  this_year := (1, 2)
  last_year := (3, 4)
  this_quarter := (5, 6)
  last_quarter := (7, 8)
  this_month := (9, 10)
  last_month := (11, 12)
  this_week := (13, 14)
  last_week := (15, 16)

/-- A concrete initial shared state for closed statements. -/
def st0 : SharedState where
  logLevel := 3
  arguments := none

/-- Concrete parsed options with an inverted date range and `--debug` set. -/
def oBad : OptIn where
  emails := []
  since := some (DateStr.ymd 2024 1 10)
  untl := some (DateStr.ymd 2024 1 1)
  debug := true
  merge := false
  total := false
  groups := []

/-- Concrete parsed options for `--since 2024-01-01 --until 2024-01-10`. -/
def oC2 : OptIn where
  emails := []
  since := some (DateStr.ymd 2024 1 1)
  untl := some (DateStr.ymd 2024 1 10)
  debug := false
  merge := false
  total := false
  groups := []

/-- Concrete parsed options with `--since` and `--until` set to the same
date `2024-03-15`. -/
def oEq : OptIn where
  emails := []
  since := some (DateStr.ymd 2024 3 15)
  untl := some (DateStr.ymd 2024 3 15)
  debug := false
  merge := false
  total := false
  groups := []

/-- Concrete plugin enable-flag values: two groups, all flags off. -/
def groupsEx : List StatGroupVals :=
  [⟨false, [false, false]⟩, ⟨false, [false]⟩]

/-- Concrete resolved options with merge mode on and total mode off. -/
def optsM : ResolvedOpt where
  emails := ["a@x.com", "b@y.com"]
  since := 0
  untl := 1
  period := "this week"
  all := true
  merge := true
  total := false

/-- Concrete resolved options with merge mode and total mode both on. -/
def optsMT : ResolvedOpt where
  emails := ["a@x.com", "b@y.com"]
  since := 0
  untl := 1
  period := "this week"
  all := true
  merge := true
  total := true

/-- Concrete resolved options with an empty email list. -/
def optsEmpty : ResolvedOpt where
  emails := []
  since := 0
  untl := 1
  period := "this week"
  all := true
  merge := false
  total := false

/-- A concrete fault model: data collection fails for the second user. -/
def failB : String → Bool := fun u => u == "b@y.com"

/-! ## Theorems -/

/-- C1: the Period Resolver selects the unit by the fixed priority order
today, year, quarter, month, otherwise week; for every unit other than today
the token `last` selects the previous instance with label "the last <unit>"
and otherwise the current instance with label "this <unit>"; and whenever
`today` is among the tokens the result is `(today, today + 1 day, "today")`
regardless of `last`. -/
theorem C1_time_period_priority (env : DateEnv) (arg : List String) :
    ("today" ∈ arg → time_period env arg = (env.today, env.today + 1, "today")) ∧
    ("today" ∉ arg → "year" ∈ arg → time_period env arg =
      (if "last" ∈ arg then (env.last_year.1, env.last_year.2, "the last fiscal year")
       else (env.this_year.1, env.this_year.2, "this fiscal year"))) ∧
    ("today" ∉ arg → "year" ∉ arg → "quarter" ∈ arg → time_period env arg =
      (if "last" ∈ arg then (env.last_quarter.1, env.last_quarter.2, "the last quarter")
       else (env.this_quarter.1, env.this_quarter.2, "this quarter"))) ∧
    ("today" ∉ arg → "year" ∉ arg → "quarter" ∉ arg → "month" ∈ arg → time_period env arg =
      (if "last" ∈ arg then (env.last_month.1, env.last_month.2, "the last month")
       else (env.this_month.1, env.this_month.2, "this month"))) ∧
    ("today" ∉ arg → "year" ∉ arg → "quarter" ∉ arg → "month" ∉ arg → time_period env arg =
      (if "last" ∈ arg then (env.last_week.1, env.last_week.2, "the last week")
       else (env.this_week.1, env.this_week.2, "this week"))) := by
  refine ⟨?_, ?_, ?_, ?_, ?_⟩ <;> intros <;> simp [time_period, *]

/-- Witness for C1 at a concrete input: with both `last` and `today` present,
the resolver returns the one-day today window. -/
theorem C1_time_period_priority_witness :
    time_period envEx ["last", "today"] = (100, 101, "today") :=
  (C1_time_period_priority envEx ["last", "today"]).1 (by decide)

/-- C2: the date range is delegated to the Period Resolver exactly when
neither `--since` nor `--until` is given; otherwise `since` defaults to the
sentinel 1993-01-01, `until` defaults to today and is advanced by one day,
and the label is the literal "given date range"; in particular
`--since 2024-01-01 --until 2024-01-10` resolves to since 2024-01-01 and
until 2024-01-11, and `parse` accepts it. -/
theorem C2_range_resolution (env : DateEnv) (since untl : Option DateStr)
    (arg args : List String) (cfg : List String) (st : SharedState) :
    (since = none → untl = none → resolve_range env since untl arg = time_period env arg) ∧
    (¬(since = none ∧ untl = none) →
      resolve_range env since untl arg =
        (dateOf env (since.getD (DateStr.ymd 1993 1 1)),
         dateOf env (untl.getD DateStr.today) + 1, "given date range")) ∧
    resolve_range env (some (DateStr.ymd 2024 1 1)) (some (DateStr.ymd 2024 1 10)) arg =
      (days_from_civil 2024 1 1, days_from_civil 2024 1 11, "given date range") ∧
    (parse env cfg oC2 arg args st).2 =
      Except.ok ⟨splitEmails cfg, days_from_civil 2024 1 1, days_from_civil 2024 1 11,
                 "given date range", true, false, false⟩ := by
  refine ⟨?_, ?_, ?_, ?_⟩
  · intro h1 h2
    simp [resolve_range, h1, h2]
  · intro h
    rcases since with _ | s <;> rcases untl with _ | u <;>
      simp [resolve_range] at h ⊢
  · simp [resolve_range, dateOf]
    decide
  · have h10 : days_from_civil 2024 1 10 + 1 = days_from_civil 2024 1 11 := by decide
    have hlt : days_from_civil 2024 1 1 < days_from_civil 2024 1 11 := by decide
    simp [parse, oC2, resolve_range, dateOf, resolve_emails, compute_all,
      splitEmails, h10, hlt]

/-- Witness for C2 at a concrete input: with neither date flag given, the
range comes from the Period Resolver. -/
theorem C2_range_resolution_witness :
    resolve_range envEx none none ["week"] = time_period envEx ["week"] :=
  ((C2_range_resolution envEx none none ["week"] [] [] st0).1) rfl rfl

/-- C3: `parse` succeeds past validation exactly when the resolved
`since < until` (with `until` exclusive); otherwise it raises the range error
reporting the inclusive end date `until - 1 day` instead of the stored
exclusive bound. -/
theorem C3_range_validation (env : DateEnv) (cfg : List String) (o : OptIn)
    (arg args : List String) (st : SharedState) :
    ((∃ res, (parse env cfg o arg args st).2 = Except.ok res) ↔
      (resolve_range env o.since o.untl arg).1 < (resolve_range env o.since o.untl arg).2.1) ∧
    (¬ (resolve_range env o.since o.untl arg).1 < (resolve_range env o.since o.untl arg).2.1 →
      (parse env cfg o arg args st).2 =
        Except.error (Exc.runtimeError (resolve_range env o.since o.untl arg).1
          ((resolve_range env o.since o.untl arg).2.1 - 1))) := by
  constructor
  · constructor
    · rintro ⟨res, h⟩
      by_contra hc
      simp [parse, hc] at h
    · intro h
      exact ⟨⟨resolve_emails o.emails cfg, (resolve_range env o.since o.untl arg).1,
              (resolve_range env o.since o.untl arg).2.1,
              (resolve_range env o.since o.untl arg).2.2,
              compute_all o.groups, o.merge, o.total⟩, by simp [parse, h]⟩
  · intro h
    simp [parse, h]

/-- Witness for C3 at a concrete input: an inverted explicit range is
rejected with the error payload carrying the inclusive end date. -/
theorem C3_range_validation_witness :
    (parse envEx [] oBad [] [] st0).2 =
      Except.error (Exc.runtimeError (days_from_civil 2024 1 10)
        (days_from_civil 2024 1 1)) :=
  (C3_range_validation envEx [] oBad [] [] st0).2 (by decide)

/-- C4: provided every stat group carries at least one stat, the derived
`all` option is true exactly when no plugin-contributed enable flag (neither
a stat flag nor a group flag) was set. -/
theorem C4_all_iff_none_selected (groups : List StatGroupVals)
    (hne : ∀ g ∈ groups, g.stats ≠ []) :
    compute_all groups = true ↔
      ∀ g ∈ groups, g.flag = false ∧ ∀ s ∈ g.stats, s = false := by
  simp [compute_all]
  constructor
  · intro h g hg
    obtain ⟨s0, hs0⟩ := List.exists_mem_of_ne_nil _ (hne g hg)
    refine ⟨?_, (h g hg).2⟩
    cases s0
    · exact (h g hg).1 hs0
    · exact absurd hs0 (h g hg).2
  · intro h g hg
    exact ⟨fun _ => (h g hg).1, (h g hg).2⟩

/-- Witness for C4 at a concrete input: two groups with all flags unset give
`all = true`. -/
theorem C4_all_iff_none_selected_witness :
    (∀ g ∈ groupsEx, g.stats ≠ []) ∧
    (compute_all groupsEx = true ↔
      ∀ g ∈ groupsEx, g.flag = false ∧ ∀ s ∈ g.stats, s = false) :=
  ⟨by decide, C4_all_iff_none_selected groupsEx (by decide)⟩

/-- C10: parsing `--since d --until d` with the same valid date `d` for both
flags succeeds: the resolved range is `[d, d + 1 day)`, the validation
`since.date < until.date` passes, and the invocation is a one-day window. -/
theorem C10_equal_bounds (env : DateEnv) (cfg : List String) (o : OptIn)
    (arg args : List String) (st : SharedState) (d : DateStr)
    (hs : o.since = some d) (hu : o.untl = some d) :
    (parse env cfg o arg args st).2 =
      Except.ok ⟨resolve_emails o.emails cfg, dateOf env d, dateOf env d + 1,
                 "given date range", compute_all o.groups, o.merge, o.total⟩ := by
  have hlt : dateOf env d < dateOf env d + 1 := by omega
  simp [parse, resolve_range, hs, hu, hlt]

/-- Witness for C10 at a concrete input: `--since 2024-03-15
--until 2024-03-15` yields the one-day window ending 2024-03-16. -/
theorem C10_equal_bounds_witness :
    (parse envEx [] oEq [] [] st0).2 =
      Except.ok ⟨[], days_from_civil 2024 3 15, days_from_civil 2024 3 15 + 1,
                 "given date range", true, false, false⟩ :=
  C10_equal_bounds envEx [] oEq [] [] st0 (DateStr.ymd 2024 3 15) rfl rfl

/-- C5: omitting `--email` falls back to the configuration default; the value
is split on comma-and-whitespace into individual addresses in encounter order
without deduplication, so one comma-separated flag and two repeated flags
yield the same list; and an empty final list makes orchestration fail with
`ConfigError "No user email provided"` before any data collection runs. -/
theorem C5_email_resolution :
    (∀ cfg : List String, resolve_emails [] cfg = splitEmails cfg) ∧
    (∀ cfg : List String,
      resolve_emails ["a@x.com, b@y.com"] cfg = ["a@x.com", "b@y.com"]) ∧
    (∀ cfg : List String,
      resolve_emails ["a@x.com", "b@y.com"] cfg = ["a@x.com", "b@y.com"]) ∧
    (∀ (o : ResolvedOpt) (f : String → Bool), o.emails = [] →
      mainBody o f = ([], Except.error (Exc.configError "No user email provided"))) := by
  refine ⟨fun cfg => rfl, fun cfg => rfl, fun cfg => rfl, ?_⟩
  intro o f h
  simp [mainBody, h]

/-- Witness for C5 at a concrete input: an empty email list is rejected with
the configuration error and an empty event trace. -/
theorem C5_email_resolution_witness :
    mainBody optsEmpty failB = ([], Except.error (Exc.configError "No user email provided")) :=
  C5_email_resolution.2.2.2 optsEmpty failB rfl

/-- C6: the Failure Classifier maps configuration and report errors to exit
code 1 after logging the error, credential failures to exit code 2 after a
fixed remediation message, a missing configuration section to exit code 3
after the error, a hint and an example config snippet using the OS user name,
while the range-validation error and every other exception are not caught. -/
theorem C6_failure_classifier (osUser m : String) (s u : Int) :
    handleExc osUser (Exc.configError m) = some ([Ev.log_error m], 1) ∧
    handleExc osUser (Exc.reportError m) = some ([Ev.log_error m], 1) ∧
    handleExc osUser Exc.gssError =
      some ([Ev.log_error "Kerberos authentication failed. Try kinit."], 2) ∧
    handleExc osUser (Exc.noSectionError m) =
      some ([Ev.log_error m,
             Ev.log_error "No email provided on the command line or in the config file",
             Ev.info "Create at least a minimum config file:",
             Ev.info ("[general]\nemail = \"My Name\" <" ++ osUser ++ "@domain.com>")], 3) ∧
    handleExc osUser (Exc.runtimeError s u) = none ∧
    handleExc osUser Exc.otherError = none :=
  ⟨rfl, rfl, rfl, rfl, rfl, rfl⟩

/-- When no user's data collection fails, the per-user loop succeeds. -/
theorem userLoop_ok (m : Bool) (f : String → Bool) (us : List String)
    (h : ∀ u ∈ us, f u = false) : (userLoop m f us).2 = Except.ok () := by
  induction us with
  | nil => rfl
  | cons u rest ih =>
      have hu : f u = false := h u (by simp)
      simp [userLoop, hu, ih (fun v hv => h v (by simp [hv]))]

/-- When some user's data collection fails, the per-user loop raises the
credential error. -/
theorem userLoop_fail (m : Bool) (f : String → Bool) (us : List String)
    (h : ∃ u ∈ us, f u = true) : (userLoop m f us).2 = Except.error Exc.gssError := by
  induction us with
  | nil => simp at h
  | cons u rest ih =>
      by_cases hu : f u = true
      · simp [userLoop, hu]
      · obtain ⟨v, hv, hfv⟩ := h
        rcases List.mem_cons.mp hv with rfl | hv2
        · exact absurd hfv hu
        · simp [userLoop, hu, ih ⟨v, hv2, hfv⟩]

/-- The per-user loop never renders the team report. -/
theorem userLoop_no_show (m : Bool) (f : String → Bool) (us : List String) :
    Ev.show_team ∉ (userLoop m f us).1 := by
  induction us with
  | nil => simp [userLoop]
  | cons u rest ih =>
      by_cases hu : f u = true <;> cases m <;> simp [userLoop, hu, ih]

/-- Under merge mode the per-user loop emits no "Total Report" header. -/
theorem userLoop_countTR (f : String → Bool) (us : List String) :
    countTR (userLoop true f us).1 = 0 := by
  induction us with
  | nil => rfl
  | cons u rest ih =>
      simp only [countTR] at ih ⊢
      by_cases hu : f u = true <;> simp [userLoop, hu, ih]

/-- C7 (amended): under merge mode the "Total Report" header and the
user-count item precede all per-user detail; the header appears exactly once
when total mode is not also requested, but twice when it is (the total-mode
render emits it again). -/
theorem C7_merge_total_report (o : ResolvedOpt) (f : String → Bool)
    (hm : o.merge = true) (hne : o.emails ≠ [])
    (hf : ∀ u ∈ o.emails, f u = false) :
    (∃ rest, (mainBody o f).1 =
      Ev.header "Total Report" ::
        Ev.item ("Users: " ++ toString o.emails.length) 0 :: rest) ∧
    countTR (mainBody o f).1 = (if o.total then 2 else 1) := by
  have hok := userLoop_ok o.merge f o.emails hf
  have hcnt := userLoop_countTR f o.emails
  rw [hm] at hok
  constructor
  · refine ⟨(userLoop true f o.emails).1 ++
      (if o.total then [Ev.header "Total Report"] else []) ++ [Ev.show_team], ?_⟩
    simp [mainBody, hm, hne, hok]
  · cases ht : o.total <;>
      simp [mainBody, countTR, hm, ht, hne, hok, List.count_append] <;>
      simpa [countTR] using hcnt

/-- Witness for C7 at a concrete input: merge mode without total mode over two
users. -/
theorem C7_merge_total_report_witness :
    (∃ rest, (mainBody optsM (fun _ => false)).1 =
      Ev.header "Total Report" ::
        Ev.item ("Users: " ++ toString optsM.emails.length) 0 :: rest) ∧
    countTR (mainBody optsM (fun _ => false)).1 = (if optsM.total then 2 else 1) :=
  C7_merge_total_report optsM (fun _ => false) rfl (by decide) (fun u _ => rfl)

/-- C7 (counterexample): with merge mode and total mode both requested over
two users, the "Total Report" header appears twice, not exactly once as the
claim states. -/
theorem C7_counterexample :
    ¬ countTR (mainBody optsMT (fun _ => false)).1 = 1 := by decide

/-- C8: a credential failure raised by a collaborator during some user's data
collection makes the invocation exit with code 2, and the team report is never
rendered (no report output besides the already-printed banners). -/
theorem C8_credential_failure (osUser : String) (o : ResolvedOpt) (f : String → Bool)
    (h : ∃ u ∈ o.emails, f u = true) :
    (mainRun osUser o f).2 = Outcome.exit 2 ∧
    Ev.show_team ∉ (mainRun osUser o f).1 := by
  have hne : o.emails ≠ [] := by rintro hrf; rw [hrf] at h; simp at h
  have hfail := userLoop_fail o.merge f o.emails h
  have hnos := userLoop_no_show o.merge f o.emails
  cases hm : o.merge <;> rw [hm] at hfail hnos <;>
    simp [mainRun, mainBody, handleExc, hm, hne, hfail, hnos]

/-- Witness for C8 at a concrete input: the second user's collection fails. -/
theorem C8_credential_failure_witness :
    (mainRun "user" optsM failB).2 = Outcome.exit 2 ∧
    Ev.show_team ∉ (mainRun "user" optsM failB).1 :=
  C8_credential_failure "user" optsM failB (by decide)

/-- C9 (counterexample): a failing `parse` call (inverted explicit range with
`--debug` set) does mutate shared state: the resulting state differs from the
initial one even though the call fails. -/
theorem C9_counterexample :
    (parse envEx [] oBad [] ["--debug"] st0).1 ≠ st0 ∧
    (parse envEx [] oBad [] ["--debug"] st0).2 =
      Except.error (Exc.runtimeError (days_from_civil 2024 1 10)
        (days_from_civil 2024 1 1)) := by
  constructor
  · decide
  · rfl

/-- C9 (amended): on every failing call, `parse` leaves the shared state
mutated in exactly two ways: the supplied argument vector is stored on the
parser object, and the ambient logging verbosity is raised to the debug level
when `--debug` was set; no other shared state changes. -/
theorem C9_parse_state_on_failure (env : DateEnv) (cfg : List String) (o : OptIn)
    (arg args : List String) (st : SharedState) (e : Exc)
    (hfail : (parse env cfg o arg args st).2 = Except.error e) :
    (parse env cfg o arg args st).1 =
      { logLevel := if o.debug then LOG_DEBUG else st.logLevel,
        arguments := some args } := by
  cases hd : o.debug <;> simp [parse, hd, apply_ite Prod.fst]

/-- Witness for C9 at a concrete input: the failing call of the
counterexample ends with the logging level raised and the arguments stored. -/
theorem C9_parse_state_on_failure_witness :
    (parse envEx [] oBad [] ["--debug"] st0).1 =
      { logLevel := LOG_DEBUG, arguments := some ["--debug"] } :=
  C9_parse_state_on_failure envEx [] oBad [] ["--debug"] st0
    (Exc.runtimeError (days_from_civil 2024 1 10) (days_from_civil 2024 1 1))
    rfl

end Did
